import Mathlib

set_option maxRecDepth 400000

/-!
Verification of the repository `Pavlo3P/iQuCodeFest_2025`.

The repository consists of a single Jupyter notebook,
`side_quests/qaoa/probleme_2.ipynb`.  We shallowly embed the notebook's
JSON content (following the nbformat 4 data model) as Lean data, together
with the small string-processing functions needed to state and decide the
specification's claims about it.
-/

/-- An output object of a code cell (nbformat `outputs` entries).  In the
repository the `outputs` lists are all empty, so only the shape of the type
matters. -/
structure Output where
  output_type : String
deriving DecidableEq

/-- A notebook cell, per nbformat 4: either a markdown cell or a code cell.
Field order and content mirror the JSON of `probleme_2.ipynb`. -/
inductive Cell where
  | markdown (source : List String)
  | code (execution_count : Option Nat) (outputs : List Output) (source : List String)
deriving DecidableEq

/-- The kind of a cell (`cell_type` in the JSON). -/
inductive CellKind where
  | markdown
  | code
deriving DecidableEq

/-- The `cell_type` field of a cell. -/
def Cell.kind : Cell → CellKind
  | .markdown _ => .markdown
  | .code _ _ _ => .code

/-- The `source` field of a cell: the list of line strings as stored in the
JSON (each line but the last ends in a newline character). -/
def Cell.sourceLines : Cell → List String
  | .markdown s => s
  | .code _ _ s => s

/-- The `execution_count` field of a code cell; markdown cells have none. -/
def Cell.executionCount : Cell → Option Nat
  | .markdown _ => none
  | .code n _ _ => n

/-- The `outputs` field of a code cell; markdown cells have none. -/
def Cell.outputList : Cell → List Output
  | .markdown _ => []
  | .code _ o _ => o

/-- Whether a cell is a code cell. -/
def Cell.isCode (c : Cell) : Bool :=
  match c with
  | .markdown _ => false
  | .code _ _ _ => true

/-- The `kernelspec` entry of the notebook metadata. -/
structure Kernelspec where
  display_name : String
  language : String
  name : String
deriving DecidableEq

/-- The `language_info` entry of the notebook metadata. -/
structure LanguageInfo where
  codemirror_mode_name : String
  codemirror_mode_version : Nat
  file_extension : String
  mimetype : String
  name : String
  nbconvert_exporter : String
  pygments_lexer : String
  version : String
deriving DecidableEq

/-- A notebook file, per nbformat 4. -/
structure Notebook where
  cells : List Cell
  kernelspec : Kernelspec
  language_info : LanguageInfo
  nbformat : Nat
  nbformat_minor : Nat

/-- The code cells of a notebook, in order. -/
def Notebook.codeCells (nb : Notebook) : List Cell :=
  nb.cells.filter Cell.isCode

/-- The embedding of `src/side_quests/qaoa/probleme_2.ipynb`: the JSON file
transcribed field by field.  String escapes: `\x27` is an apostrophe and
`\x60` a backtick, exactly the characters of the source file. -/
def probleme_2 : Notebook where
  cells :=
    [ Cell.markdown
        [ "# Problem 2 : Partitionning the Bus Fleet\n"
        , "\n"
        , "In part 1, you were able to solve the simple MaxCut problem. Let\x27s spice things up a bit by taking more information into account!\n"
        , "\n"
        , "## Problem Statement\n"
        , "> The STS wishes to add 5 buses each serving a different line, to accomodate the growing need felt by users for the morning departures of 08:00 am and 08:30. Given that some bus lines intersect, we want to organize the buses into 2 groups. Ideally, we want the buses serving the same stops to depart at different times as much as possible.\n"
        , "\n"
        , "### Supplementary Information\n"
        , "In this problem, all bus line intertsections are not equal.\n"
        , "An **intersecting weight** is specified, corresponding to the number of common edges between two bus lines. This translates the fact that some bus lines have more stops in common than other and thus, partionning them into different groups takes priority.\n"
        , "\n"
        , "The following table summarizes the intersection weights for each bus line (i.e. the number of edges in common between each pair of bus lines):\n"
        , "\n"
        , "<p align=\"center\">\n"
        , "<img src=\"figures/table_prob2_ENG.png\" alt=\"prob2\" width=\"500\"/>\n"
        , "</p>\n"
        , "\n"
        , "**A larger weight** means that two bus lines shares a higher number of edges.\n"
        , "\n"
        , "## Goal\n"
        , "Your goal is to **minimize the sum of intersection weights** in each departure group. In other words, you want to divide the departure lines sharing many stops.\n"
        , "\n"
        , "### How : You need to\n"
        , "- encode the problem into a \x60SparsePauliOp\x60 Hamiltonian\n"
        , "- optimize the parameters of your QAOA circuit\n"
        , "- select a good set of hyperparameters (number of layers, optimizer, ...)\n"
        , "\n"
        , "#### Evaluation : You must\n"
        , "- Show a mentor that you were able to run your code correctly (showing cell outputs is sufficient)\n"
        , "- Show the optimal solutions you identified for this problem"
        ]
    , Cell.code none [] [ "# Instanciate your Hamiltonian" ]
    , Cell.code none [] [ "# Instanciate your QAOA circuit" ]
    , Cell.code none [] [ "# Hyperparameter optimisation" ]
    , Cell.code none [] [ "# Result analysis and identified solutions" ]
    ]
  kernelspec :=
    { display_name := "test1_codefest2025_venv"
    , language := "python"
    , name := "python3" }
  language_info :=
    { codemirror_mode_name := "ipython"
    , codemirror_mode_version := 3
    , file_extension := ".py"
    , mimetype := "text/x-python"
    , name := "python"
    , nbconvert_exporter := "python"
    , pygments_lexer := "ipython3"
    , version := "3.12.2" }
  nbformat := 4
  nbformat_minor := 2

/-- The repository's file listing, relative to its root: the notebook is the
only source file present. -/
def repoFiles : List String :=
  [ "side_quests/qaoa/probleme_2.ipynb" ]

/-- The directory of the notebook inside the repository, against which the
notebook's relative asset references resolve. -/
def notebookDir : String := "side_quests/qaoa"

/-- Resolve a path `rel` that is relative to directory `dir`. -/
def resolveRel (dir rel : String) : String := dir ++ "/" ++ rel

/-- Whether the first non-whitespace character of a character list is `#`,
the Python comment marker; an all-whitespace list also counts.  Per Python's
lexical rules such a line holds no statement: evaluating it is a no-op. -/
def isCommentChars : List Char → Bool
  | [] => true
  | c :: cs => if c.isWhitespace then isCommentChars cs else c == '#'

/-- A source line that is blank or a Python comment, hence not an
executable statement. -/
def isNoOpLine (s : String) : Bool := isCommentChars s.toList

/-- Whether the first list of characters is an initial segment of the
second. -/
def charsStarts : List Char → List Char → Bool
  | [], _ => true
  | _ :: _, [] => false
  | a :: as, b :: bs => a == b && charsStarts as bs

/-- Whether the pattern occurs as a contiguous run inside the list. -/
def charsHasSub (pat : List Char) : List Char → Bool
  | [] => pat.isEmpty
  | c :: cs => charsStarts pat (c :: cs) || charsHasSub pat cs

/-- Whether `pat` occurs as a substring of `s`. -/
def strHasSub (s pat : String) : Bool := charsHasSub pat.toList s.toList

/-- Whether `s` starts with `pat`. -/
def strStarts (s pat : String) : Bool :=
  charsStarts pat.toList s.toList

/-- Whether `s` ends with `pat`. -/
def strEnds (s pat : String) : Bool :=
  charsStarts pat.toList.reverse s.toList.reverse

/-- All values of HTML attributes written `src="..."` occurring in a line:
for every occurrence of the five characters `src="`, the characters up to
the next double quote. -/
def srcValuesChars : List Char → List String
  | [] => []
  | c :: cs =>
    if charsStarts ("src=\"".toList) (c :: cs) then
      String.mk (((c :: cs).drop 5).takeWhile (fun ch => ch != '"')) :: srcValuesChars cs
    else
      srcValuesChars cs

/-- Every source line of every cell of the notebook, in order. -/
def Notebook.allLines (nb : Notebook) : List String :=
  (nb.cells.map Cell.sourceLines).flatten

/-- Every source line of every markdown cell of the notebook. -/
def Notebook.markdownLines (nb : Notebook) : List String :=
  ((nb.cells.filter (fun c => !(c.isCode))).map Cell.sourceLines).flatten

/-- All `src="..."` attribute values occurring anywhere in the notebook:
the asset paths the notebook references. -/
def Notebook.imgSrcPaths (nb : Notebook) : List String :=
  (nb.allLines.map (fun l => srcValuesChars l.toList)).flatten

/-- The label a code cell bears: its source lines joined into one string. -/
def Notebook.codeCellLabels (nb : Notebook) : List String :=
  nb.codeCells.map (fun c => String.join c.sourceLines)

/-- Evaluation of one code cell over an environment of defined names.
The repository holds no Python code beyond comment lines, so only the
fragment of Python the source exercises is modelled: a cell all of whose
lines are blank or comments is a no-op, leaving the environment unchanged
and raising no error; any other cell is outside the model and is reported
as an error. -/
def evalCell (env : List String) (c : Cell) : Except String (List String) :=
  if c.sourceLines.all isNoOpLine then Except.ok env
  else Except.error "cell holds statements outside the modelled fragment"

/-- Evaluation of all code cells of a notebook in order, starting from an
empty environment of defined names. -/
def runNotebook (nb : Notebook) : Except String (List String) :=
  nb.codeCells.foldlM evalCell []

/-- The four code-cell labels exactly as the specification's words give
them; stated only to compare the specification's wording against the
notebook's actual cell sources. -/
def specClaimedLabels : List String :=
  [ "Instantiate your Hamiltonian"
  , "Instantiate your QAOA circuit"
  , "Hyperparameter optimization"
  , "Result analysis" ]

/-- C1 counterexample: the notebook's code cells do not bear the labels the
claim quotes, neither as the full cell source nor after the comment marker
`# `: the source spells "Instanciate", "optimisation", and "Result analysis
and identified solutions". -/
theorem c1_spec_labels_mismatch :
    probleme_2.codeCellLabels ≠ specClaimedLabels ∧
    probleme_2.codeCellLabels ≠ specClaimedLabels.map (fun l => "# " ++ l) := by
  decide

/-- C1 (amended): the notebook's four code cells are placeholders each
holding a single comment line, and their labels are exactly
`# Instanciate your Hamiltonian`, `# Instanciate your QAOA circuit`,
`# Hyperparameter optimisation`, and
`# Result analysis and identified solutions`, in that order. -/
theorem c1_code_cell_labels :
    probleme_2.codeCellLabels =
      [ "# Instanciate your Hamiltonian"
      , "# Instanciate your QAOA circuit"
      , "# Hyperparameter optimisation"
      , "# Result analysis and identified solutions" ] ∧
    probleme_2.codeCells.all
      (fun c => c.sourceLines.length == 1 && c.sourceLines.all isNoOpLine) = true := by
  decide

/-- C2: every source line of every code cell of the notebook is a blank or
comment line, so no code cell holds an executable Python statement — no
algorithm, data structure, function, class, or assignment occurs anywhere;
and the notebook does have code cells, so the statement is not vacuous. -/
theorem c2_no_executable_statement :
    probleme_2.codeCells.all (fun c => c.sourceLines.all isNoOpLine) = true ∧
    probleme_2.codeCells ≠ [] := by
  decide

/-- C3: the notebook's cell list is exactly one markdown cell followed by
exactly four code cells, and the markdown cell's title line names the
bus-partitioning problem. -/
theorem c3_cell_structure :
    probleme_2.cells.map Cell.kind =
      [CellKind.markdown, CellKind.code, CellKind.code, CellKind.code, CellKind.code] ∧
    strStarts (probleme_2.markdownLines.headD "") "# Problem 2 : Partitionning the Bus Fleet" = true := by
  decide

/-- C4: every code cell of the notebook has `execution_count` null and an
empty `outputs` list, and there are four such cells, so the notebook
records no outputs for any cell. -/
theorem c4_no_outputs :
    probleme_2.codeCells.all
      (fun c => (c.executionCount == none) && (c.outputList == [])) = true ∧
    probleme_2.codeCells.length = 4 := by
  decide

/-- C5: the markdown text mentions the 5 bus lines, the 2 target groups and
the intersection weights, the weight table is referenced only through the
single image path, and every code-cell line is a comment, so the instance is
never instantiated as code, array, matrix, or object anywhere in the
notebook. -/
theorem c5_instance_only_in_markdown :
    probleme_2.markdownLines.any (fun l => strHasSub l "5 buses") = true ∧
    probleme_2.markdownLines.any (fun l => strHasSub l "2 groups") = true ∧
    probleme_2.markdownLines.any (fun l => strHasSub l "intersection weights") = true ∧
    probleme_2.imgSrcPaths = ["figures/table_prob2_ENG.png"] ∧
    probleme_2.codeCells.all (fun c => c.sourceLines.all isNoOpLine) = true := by
  decide

/-- C6: the only `src="..."` asset reference anywhere in the notebook is the
single image path `figures/table_prob2_ENG.png`, it occurs in a markdown
cell, no line of the notebook references a URL, and the code cells hold only
comments, so no CLI, wire protocol, file format, or persisted state is
defined by any cell. -/
theorem c6_only_asset :
    probleme_2.imgSrcPaths = ["figures/table_prob2_ENG.png"] ∧
    probleme_2.markdownLines.any
      (fun l => strHasSub l "figures/table_prob2_ENG.png") = true ∧
    probleme_2.allLines.all (fun l => !(strHasSub l "http")) = true ∧
    probleme_2.codeCells.all (fun c => c.sourceLines.all isNoOpLine) = true := by
  decide

/-- C7: each of the four code cells' source is a single line beginning with
the character `#`, and evaluating the code cells in order under the
modelled Python semantics raises no error and defines no names. -/
theorem c7_cells_are_noops :
    probleme_2.codeCells.map Cell.sourceLines =
      [ ["# Instanciate your Hamiltonian"]
      , ["# Instanciate your QAOA circuit"]
      , ["# Hyperparameter optimisation"]
      , ["# Result analysis and identified solutions"] ] ∧
    (probleme_2.codeCells.all
      (fun c => c.sourceLines.all (fun l => strStarts l "#"))) = true ∧
    runNotebook probleme_2 = Except.ok [] := by
  refine ⟨by decide, by decide, rfl⟩

/-- C8: the notebook's metadata declares a kernelspec whose language is
`python` (matched by `language_info`), with `nbformat` 4 and
`nbformat_minor` 2, so the intended execution language of the code cells is
Python. -/
theorem c8_python_kernelspec :
    probleme_2.kernelspec.language = "python" ∧
    probleme_2.language_info.name = "python" ∧
    probleme_2.nbformat = 4 ∧
    probleme_2.nbformat_minor = 2 := by
  decide

/-- C9: the notebook references the asset `figures/table_prob2_ENG.png`,
yet the notebook itself is the repository's only file: the reference,
resolved against the notebook's directory, names no file of the repository,
and no repository file is a PNG, so the reference carrying the weight data
dangles within the repository. -/
theorem c9_dangling_image_reference :
    probleme_2.imgSrcPaths = ["figures/table_prob2_ENG.png"] ∧
    probleme_2.imgSrcPaths.all
      (fun p => !(repoFiles.contains (resolveRel notebookDir p))) = true ∧
    repoFiles = ["side_quests/qaoa/probleme_2.ipynb"] ∧
    repoFiles.all (fun f => !(strEnds f ".png")) = true := by
  decide
